import Mathlib

/-!
Shallow embedding of the OpenLockey authentication service
(src/app/api/auth.py, src/app/api/admin.py, src/app/api/users.py,
src/app/core/security.py, src/app/core/config.py, src/app/models/models.py)
and proofs of the spec's claims about it.

Modelling conventions:
- timestamps (`datetime.utcnow()` values, `locked_until`, `expires_at`) are
  naturals counting seconds; `timedelta(hours=h)` is `h * 3600`;
- the relational store is a `Store` of lists of rows; SQLAlchemy's mutation
  of the first row returned by a `select ... first()` is modelled by
  `replaceFirst` on the list;
- the password hashing primitive (`passlib` argon2) is external: `login`
  takes the `verify : String → String → Bool` function as a parameter and
  `register_user` takes `hash : String → String`;
- `secrets.choice` randomness is a caller-supplied index stream
  `choice : Nat → Nat`; the unbounded retry loop of `generate_password`
  is given explicit fuel and returns `Option`;
- database-assigned ids, `created_at` / `updated_at` columns and the ASGI
  cookie plumbing are not needed by any claim and are omitted; fresh
  session tokens and fresh row ids are passed as arguments;
- src/app/main.py installs only `CORSMiddleware`, never Starlette's
  `SessionMiddleware`, so any access to `request.session` (auth.py line
  156 on the login success path, auth.py line 199 in logout) raises
  `AssertionError("SessionMiddleware must be installed to access
  request.session")`, surfaced by the framework as an HTTP 500; the model
  carries this as an explicit `assertionError` outcome, after the database
  commits that precede the crash.
-/

namespace OpenLockey

/-! ### Configuration (src/app/core/config.py) -/

def FAIL_LOCK_ATTEMPTS : Nat := 5

def FAIL_LOCK_DURATION_HOURS : Nat := 2

def SESSION_EXPIRE_HOURS : Nat := 72

/-! ### Data model (src/app/models/models.py) -/

/-- Row of the `users` table. `created_at` / `updated_at` are omitted
(no claim mentions them). Field defaults in the source: `is_admin=False`,
`is_active=True`, `failed_login_attempts=0`, `permanent_lock=False`. -/
structure UserRec where
  id : Nat
  username : String
  password_hash : String
  last_login : Option Nat
  is_admin : Bool
  is_active : Bool
  failed_login_attempts : Nat
  locked_until : Option Nat
  permanent_lock : Bool
deriving Repr, DecidableEq

/-- Row of the `sessions` table (`id` and `created_at` omitted). -/
structure SessionRec where
  user_id : Nat
  token_hash : String
  ip_address : String
  user_agent : String
  expires_at : Nat
  is_active : Bool
deriving Repr, DecidableEq

/-- Row of the `login_history` table (`id` and `timestamp` omitted;
`timestamp` is a database-side default used by no claim). -/
structure HistoryRec where
  user_id : Option Nat
  ip_address : String
  user_agent : String
  success : Bool
  failure_reason : Option String
deriving Repr, DecidableEq

/-- Row of the `reset_requests` table (`timestamp` omitted). -/
structure ResetRequestRec where
  id : Nat
  user_id : Nat
  request_reason : String
  status : String
  resolved_by : Option Nat
  resolved_at : Option Nat
deriving Repr, DecidableEq

/-- The relational store. -/
structure Store where
  users : List UserRec
  sessions : List SessionRec
  history : List HistoryRec
  resetRequests : List ResetRequestRec
deriving Repr, DecidableEq

/-- `select(User).where(User.username == name)` followed by `.first()`. -/
def findUser (users : List UserRec) (name : String) : Option UserRec :=
  users.find? (fun u => u.username == name)

/-- SQLAlchemy ORM mutation of the row returned by `.first()`: the first
list element satisfying `p` is replaced by `x`. -/
def replaceFirst (p : α → Bool) (x : α) : List α → List α
  | [] => []
  | y :: ys => if p y then x :: ys else y :: replaceFirst p x ys

/-! ### Lockout helpers (src/app/core/security.py) -/

/-- Python truthiness test `user.locked_until and user.locked_until > now`
(a `None` value is falsy; a datetime is always truthy). -/
def tempLockActive (u : UserRec) (now : Nat) : Bool :=
  match u.locked_until with
  | none => false
  | some t => decide (now < t)

/-- `is_locked` from src/app/core/security.py lines 42-50, with the ambient
`datetime.utcnow()` made an explicit `now` argument. -/
def is_locked (u : UserRec) (now : Nat) : Bool :=
  if u.permanent_lock then true
  else if tempLockActive u now then true
  else false

/-! ### Password generation (src/app/core/security.py lines 22-40) -/

def lowercase : List Char := "abcdefghijkmnopqrstuvwxyz".toList

def uppercase : List Char := "ABCDEFGHJKLMNPQRSTUVWXYZ".toList

def digits : List Char := "23456789".toList

def alphabet : List Char := lowercase ++ uppercase ++ digits

/-- One candidate password: `length` draws of `secrets.choice(alphabet)`,
the random source being the index stream `choice` consumed from
position `base`. -/
def mkCandidate (choice : Nat → Nat) (base length : Nat) : List Char :=
  (List.range length).map (fun i => alphabet.getD (choice (base + i) % alphabet.length) 'a')

/-- The acceptance test of the `while True` loop: at least one character
from each of the three (restricted) classes. -/
def passwordOk (p : List Char) : Bool :=
  p.any (fun c => lowercase.contains c) &&
  p.any (fun c => uppercase.contains c) &&
  p.any (fun c => digits.contains c)

/-- The `while True` retry loop of `generate_password`, with explicit fuel
(the Python loop is unbounded; it terminates as soon as a candidate passes
`passwordOk`). Attempt `k` consumes stream positions
`k*length, ..., (k+1)*length - 1`. -/
def generatePasswordLoop (choice : Nat → Nat) (length : Nat) : Nat → Nat → Option (List Char)
  | 0, _ => none
  | fuel + 1, attempt =>
    let p := mkCandidate choice (attempt * length) length
    if passwordOk p then some p else generatePasswordLoop choice length fuel (attempt + 1)

/-- `generate_password(length)` from src/app/core/security.py. -/
def generate_password (choice : Nat → Nat) (fuel : Nat) (length : Nat) : Option (List Char) :=
  generatePasswordLoop choice length fuel 0

/-! ### Login (src/app/api/auth.py lines 42-170) -/

/-- The `AssertionError` message of Starlette's `HTTPConnection.session`
property when no `SessionMiddleware` is installed (main.py adds only
`CORSMiddleware`). -/
def sessionAssertDetail : String :=
  "SessionMiddleware must be installed to access request.session"

/-- Outcome of the `/api/login` route: the JSON success body of auth.py
lines 162-170 (never actually reached, see `assertionError`), a raised
`HTTPException` (status code and detail), or the uncaught Python
`AssertionError` from `request.session` that the framework surfaces as an
HTTP 500. -/
inductive LoginResponse where
  | ok (message : String) (userId : Nat) (username : String) (isAdmin : Bool)
  | err (statusCode : Nat) (detail : String)
  | assertionError (message : String)
deriving Repr, DecidableEq

def invalidCredentialsDetail : String := "認証に失敗しました。"

def permanentLockDetail : String := "このアカウントはロックされています。管理者に連絡してください。"

/-- `int((locked_until - utcnow()).total_seconds() / 60)`: with both times
in whole seconds and `now < lockedUntil`, Python `int()` truncation of the
positive float quotient is natural-number division by 60. -/
def lockRemainingMinutes (lockedUntil now : Nat) : Nat := (lockedUntil - now) / 60

/-- The f-string detail of the temporary-lock `HTTPException`. -/
def tempLockDetail (minutes : Nat) : String :=
  "このアカウントは一時的にロックされています。約" ++ toString minutes ++ "分後に再試行してください。"

/-- `login` from src/app/api/auth.py lines 42-170. `verify` is the external
argon2 `verify_password`; `token` is the fresh `generate_session_token()`
value; `now` stands for the (near-simultaneous) `datetime.utcnow()` calls
of one request. The branches appear in source order: unknown user,
permanent lock, temporary lock, wrong password (with threshold check),
correct password. On a correct password the handler commits the counter
reset, the new session row and the success history row (line 142) and sets
the cookie on the injected `Response`, but then line 156 assigns into
`request.session`, which raises `AssertionError` because main.py never
installs `SessionMiddleware`: the success body of lines 162-170 is never
returned, the caller gets an HTTP 500 while the commits persist. -/
def login (verify : String → String → Bool) (st : Store)
    (username password ip ua : String) (now : Nat) (token : String) :
    LoginResponse × Store :=
  match findUser st.users username with
  | none =>
    let h : HistoryRec := ⟨none, ip, ua, false, some "ユーザーが存在しません。"⟩
    (.err 401 invalidCredentialsDetail, { st with history := st.history ++ [h] })
  | some user =>
    if user.permanent_lock then
      let h : HistoryRec := ⟨some user.id, ip, ua, false,
        some "アカウントが永続的にロックされています。"⟩
      (.err 401 permanentLockDetail, { st with history := st.history ++ [h] })
    else if tempLockActive user now then
      let h : HistoryRec := ⟨some user.id, ip, ua, false,
        some "アカウントが一時的にロックされています。"⟩
      let minutes := lockRemainingMinutes (user.locked_until.getD 0) now
      (.err 401 (tempLockDetail minutes), { st with history := st.history ++ [h] })
    else if verify password user.password_hash = false then
      let failed := user.failed_login_attempts + 1
      let nowLocked := decide (FAIL_LOCK_ATTEMPTS ≤ failed)
      let user2 :=
        if nowLocked then
          { user with failed_login_attempts := failed,
                      locked_until := some (now + FAIL_LOCK_DURATION_HOURS * 3600) }
        else { user with failed_login_attempts := failed }
      let reason :=
        if nowLocked then "パスフレーズが正しくありません。アカウントがロックされました。"
        else "パスフレーズが正しくありません。"
      let h : HistoryRec := ⟨some user.id, ip, ua, false, some reason⟩
      (.err 401 invalidCredentialsDetail,
        { st with users := replaceFirst (fun u => u.username == username) user2 st.users,
                  history := st.history ++ [h] })
    else
      let user2 := { user with failed_login_attempts := 0, locked_until := none,
                               last_login := some now }
      let sess : SessionRec := ⟨user.id, token, ip, ua,
        now + SESSION_EXPIRE_HOURS * 3600, true⟩
      let h : HistoryRec := ⟨some user.id, ip, ua, true, none⟩
      (.assertionError sessionAssertDetail,
        { st with users := replaceFirst (fun u => u.username == username) user2 st.users,
                  sessions := st.sessions ++ [sess],
                  history := st.history ++ [h] })

/-! ### Logout (src/app/api/auth.py lines 172-202) -/

/-- Outcome of a route returning a plain status/message JSON body, a
raised `HTTPException`, or an uncaught Python `AssertionError` (HTTP
500). -/
inductive SimpleResponse where
  | ok (message : String)
  | err (statusCode : Nat) (detail : String)
  | assertionError (message : String)
deriving Repr, DecidableEq

/-- `logout` from src/app/api/auth.py lines 172-202. The cookie may be
absent (`none`); when present, the first session row whose `token_hash`
matches is set inactive and this change is committed (line 188). The
handler then deletes the cookie and, on line 199, unconditionally
evaluates `"user" in request.session`; since main.py never installs
`SessionMiddleware` this raises `AssertionError` on every call, so the
route always answers HTTP 500 — the success body on line 202 is never
returned, while the committed deactivation persists. -/
def logout (st : Store) (cookieToken : Option String) : SimpleResponse × Store :=
  match cookieToken with
  | none => (.assertionError sessionAssertDetail, st)
  | some token =>
    match st.sessions.find? (fun s => s.token_hash == token) with
    | none => (.assertionError sessionAssertDetail, st)
    | some s =>
      let s2 := { s with is_active := false }
      let sessions2 := replaceFirst (fun r => r.token_hash == token) s2 st.sessions
      (.assertionError sessionAssertDetail, { st with sessions := sessions2 })

/-! ### Session resolution (src/app/api/users.py lines 86-97,
src/app/api/admin.py lines 27-38) -/

/-- The session `select` used by every protected route:
`token_hash == token AND is_active == True AND expires_at > utcnow()`,
then `.first()`. -/
def sessionQuery (sessions : List SessionRec) (token : String) (now : Nat) :
    Option SessionRec :=
  sessions.find? (fun s => s.token_hash == token && s.is_active && decide (now < s.expires_at))

/-- Outcome of `GET /api/user/profile`. -/
inductive ProfileResult where
  | ok (userId : Nat) (username : String) (lastLogin : Option Nat)
       (isAdmin isActive : Bool) (activeSessions : Nat)
  | err (statusCode : Nat) (detail : String)
deriving Repr, DecidableEq

/-- `get_user_profile` from src/app/api/users.py lines 74-125. -/
def get_user_profile (st : Store) (cookieToken : Option String) (now : Nat) :
    ProfileResult :=
  match cookieToken with
  | none => .err 401 "認証されていません。"
  | some token =>
    match sessionQuery st.sessions token now with
    | none => .err 401 "セッションが無効または期限切れです。"
    | some s =>
      match st.users.find? (fun u => u.id == s.user_id) with
      | none => .err 404 "ユーザーが見つかりません。"
      | some u =>
        let active := st.sessions.filter
          (fun s2 => s2.user_id == u.id && s2.is_active && decide (now < s2.expires_at))
        .ok u.id u.username u.last_login u.is_admin u.is_active active.length

/-- Outcome of the `get_admin_user` dependency. -/
inductive AdminGate where
  | ok (admin : UserRec)
  | err (statusCode : Nat) (detail : String)
deriving Repr, DecidableEq

/-- `get_admin_user` from src/app/api/admin.py lines 17-50. -/
def get_admin_user (st : Store) (cookieToken : Option String) (now : Nat) : AdminGate :=
  match cookieToken with
  | none => .err 401 "認証されていません。"
  | some token =>
    match sessionQuery st.sessions token now with
    | none => .err 401 "セッションが無効または期限切れです。"
    | some s =>
      match st.users.find? (fun u => u.id == s.user_id) with
      | none => .err 403 "管理者権限が必要です。"
      | some u => if u.is_admin then .ok u else .err 403 "管理者権限が必要です。"

/-! ### Registration (src/app/api/auth.py lines 15-40) -/

/-- `UserCreate` from src/app/schemas/schemas.py lines 9-11: the public
registration payload carries `username`, `password` and `is_admin`
(default false, but any caller may set it). -/
structure UserCreate where
  username : String
  password : String
  is_admin : Bool
deriving Repr, DecidableEq

/-- Outcome of `POST /api/register` (the created user, echoed as
`UserOut`, or a raised `HTTPException`). -/
inductive RegisterResult where
  | ok (u : UserRec)
  | err (statusCode : Nat) (detail : String)
deriving Repr, DecidableEq

/-- `register_user` from src/app/api/auth.py lines 15-40. The route has no
session/authentication dependency; `hash` is the external argon2
`get_password_hash`; `newId` is the database-assigned id. Column defaults
from models.py apply to the unset fields. -/
def register_user (hash : String → String) (st : Store) (payload : UserCreate)
    (newId : Nat) : RegisterResult × Store :=
  match findUser st.users payload.username with
  | some _ => (.err 400 "このユーザー名は既に使用されています。", st)
  | none =>
    let u : UserRec :=
      { id := newId, username := payload.username,
        password_hash := hash payload.password, last_login := none,
        is_admin := payload.is_admin, is_active := true,
        failed_login_attempts := 0, locked_until := none, permanent_lock := false }
    (.ok u, { st with users := st.users ++ [u] })

/-! ### Reset-request submission (src/app/api/auth.py lines 204-236) -/

/-- Outcome of `POST /api/reset-request`: the success body, or the
uncaught Python `NameError` (carrying the unbound name) that FastAPI
surfaces as an HTTP 500. -/
inductive ResetSubmitOutcome where
  | ok (message : String)
  | nameError (missingName : String)
deriving Repr, DecidableEq

/-- `request_password_reset` from src/app/api/auth.py lines 204-236.
The module's imports (auth.py lines 8-10) bring in `User`, `Session` and
`LoginHistory` but not `ResetRequest`, so the existing-user branch
(line 224, `new_request = ResetRequest(...)`) evaluates an unbound name
and raises `NameError` before anything is added to the database; only the
absent-user branch returns the success body. -/
def request_password_reset (st : Store) (username _reason : String) :
    ResetSubmitOutcome × Store :=
  match findUser st.users username with
  | none =>
    (.ok "リセットリクエストが送信されました。管理者による確認をお待ちください。", st)
  | some _ => (.nameError "ResetRequest", st)

/-! ### Reset-request resolution (src/app/api/admin.py lines 245-288) -/

/-- `update_reset_request` from src/app/api/admin.py lines 245-288.
`admin` is the user already resolved by the `get_admin_user` dependency;
`decision` is `ResetRequestUpdate.status` (an unvalidated string in the
source). On a pending request the status/resolver fields are set; if the
decision is `approved` and the requesting user exists, their temporary
lock fields are cleared (`permanent_lock` deliberately untouched,
admin.py line 284). -/
def update_reset_request (st : Store) (requestId : Nat) (admin : UserRec)
    (decision : String) (now : Nat) : SimpleResponse × Store :=
  match st.resetRequests.find? (fun r => r.id == requestId) with
  | none => (.err 404 "リセットリクエストが見つかりません。", st)
  | some req =>
    if req.status != "pending" then
      (.err 400 "このリクエストはすでに処理されています。", st)
    else
      let req2 := { req with status := decision, resolved_by := some admin.id,
                             resolved_at := some now }
      let requests2 := replaceFirst (fun r => r.id == requestId) req2 st.resetRequests
      let st2 := { st with resetRequests := requests2 }
      if decision == "approved" then
        match st2.users.find? (fun u => u.id == req.user_id) with
        | none => (.ok "リセットリクエストが更新されました。", st2)
        | some tu =>
          let tu2 := { tu with failed_login_attempts := 0, locked_until := none }
          (.ok "リセットリクエストが更新されました。",
            { st2 with users := replaceFirst (fun u => u.id == req.user_id) tu2 st2.users })
      else (.ok "リセットリクエストが更新されました。", st2)

/-! ### Basic lemmas -/

theorem find?_some_of_replaceFirst {p : α → Bool} {x : α} {l : List α} {y : α}
    (hl : l.find? p = some y) (hx : p x = true) :
    (replaceFirst p x l).find? p = some x := by
  induction l with
  | nil => simp at hl
  | cons a l ih =>
    by_cases h : p a = true
    · simp [replaceFirst, h, hx]
    · have h' : p a = false := by simpa using h
      simp [replaceFirst, h', List.find?_cons] at hl ⊢
      exact ih hl

theorem replaceFirst_idem {p : α → Bool} {x : α} (l : List α) (hx : p x = true) :
    replaceFirst p x (replaceFirst p x l) = replaceFirst p x l := by
  induction l with
  | nil => rfl
  | cons a l ih =>
    by_cases h : p a = true
    · simp [replaceFirst, h, hx]
    · have h' : p a = false := by simpa using h
      simp [replaceFirst, h', ih]

theorem mem_alphabet_getD : ∀ i < alphabet.length, alphabet.getD i 'a' ∈ alphabet := by
  decide

theorem alphabet_length_pos : 0 < alphabet.length := by decide

/-! ### Branch lemmas for `login` -/

theorem login_unknown_user {verify st username pw ip ua now tok}
    (hu : findUser st.users username = none) :
    login verify st username pw ip ua now tok =
      (.err 401 invalidCredentialsDetail,
       { st with history := st.history ++
          [⟨none, ip, ua, false, some "ユーザーが存在しません。"⟩] }) := by
  simp [login, hu]

theorem login_permanent_lock {verify st username pw ip ua now tok} {u : UserRec}
    (hu : findUser st.users username = some u) (hp : u.permanent_lock = true) :
    login verify st username pw ip ua now tok =
      (.err 401 permanentLockDetail,
       { st with history := st.history ++
          [⟨some u.id, ip, ua, false, some "アカウントが永続的にロックされています。"⟩] }) := by
  simp [login, hu, hp]

theorem login_temporary_lock {verify st username pw ip ua now tok} {u : UserRec} {t : Nat}
    (hu : findUser st.users username = some u) (hp : u.permanent_lock = false)
    (hl : u.locked_until = some t) (ht : now < t) :
    login verify st username pw ip ua now tok =
      (.err 401 (tempLockDetail (lockRemainingMinutes t now)),
       { st with history := st.history ++
          [⟨some u.id, ip, ua, false, some "アカウントが一時的にロックされています。"⟩] }) := by
  simp [login, hu, hp, tempLockActive, hl, ht]

theorem login_wrong_password_below_threshold {verify st username pw ip ua now tok}
    {u : UserRec}
    (hu : findUser st.users username = some u) (hp : u.permanent_lock = false)
    (hl : tempLockActive u now = false)
    (hv : verify pw u.password_hash = false)
    (hc : u.failed_login_attempts + 1 < FAIL_LOCK_ATTEMPTS) :
    login verify st username pw ip ua now tok =
      (.err 401 invalidCredentialsDetail,
       { st with
          users := replaceFirst (fun v => v.username == username)
            { u with failed_login_attempts := u.failed_login_attempts + 1 } st.users,
          history := st.history ++
            [⟨some u.id, ip, ua, false, some "パスフレーズが正しくありません。"⟩] }) := by
  have hc' : ¬ FAIL_LOCK_ATTEMPTS ≤ u.failed_login_attempts + 1 := by omega
  simp [login, hu, hp, hl, hv, hc']

theorem login_wrong_password_now_locked {verify st username pw ip ua now tok}
    {u : UserRec}
    (hu : findUser st.users username = some u) (hp : u.permanent_lock = false)
    (hl : tempLockActive u now = false)
    (hv : verify pw u.password_hash = false)
    (hc : FAIL_LOCK_ATTEMPTS ≤ u.failed_login_attempts + 1) :
    login verify st username pw ip ua now tok =
      (.err 401 invalidCredentialsDetail,
       { st with
          users := replaceFirst (fun v => v.username == username)
            { u with failed_login_attempts := u.failed_login_attempts + 1,
                     locked_until := some (now + FAIL_LOCK_DURATION_HOURS * 3600) } st.users,
          history := st.history ++
            [⟨some u.id, ip, ua, false,
              some "パスフレーズが正しくありません。アカウントがロックされました。"⟩] }) := by
  simp [login, hu, hp, hl, hv, hc]

/-- Correct-password branch: the counter reset, session insert and success
history row are committed, but the response is the `request.session`
`AssertionError` (HTTP 500), not the success body. -/
theorem login_correct_password {verify st username pw ip ua now tok} {u : UserRec}
    (hu : findUser st.users username = some u) (hp : u.permanent_lock = false)
    (hl : tempLockActive u now = false)
    (hv : verify pw u.password_hash = true) :
    login verify st username pw ip ua now tok =
      (.assertionError sessionAssertDetail,
       { st with
          users := replaceFirst (fun v => v.username == username)
            { u with failed_login_attempts := 0, locked_until := none,
                     last_login := some now } st.users,
          sessions := st.sessions ++
            [⟨u.id, tok, ip, ua, now + SESSION_EXPIRE_HOURS * 3600, true⟩],
          history := st.history ++ [⟨some u.id, ip, ua, true, none⟩] }) := by
  simp [login, hu, hp, hl, hv]

/-- A `findUser` hit survives the in-place update of that row, as long as
the updated row keeps the username. -/
theorem findUser_after_replace {users : List UserRec} {name : String} {u u2 : UserRec}
    (hu : findUser users name = some u) (hname : u2.username = u.username) :
    findUser (replaceFirst (fun v => v.username == name) u2 users) name = some u2 := by
  have hpu : (u.username == name) = true := by
    have := List.find?_some hu
    simpa using this
  have hpu2 : (u2.username == name) = true := by rw [hname]; exact hpu
  exact find?_some_of_replaceFirst hu hpu2

theorem tempLockDetail_ne_invalid (m : Nat) :
    tempLockDetail m ≠ invalidCredentialsDetail := by
  intro h
  have h2 := congrArg String.length h
  have e1 : ("このアカウントは一時的にロックされています。約" : String).length = 23 := rfl
  have e2 : ("分後に再試行してください。" : String).length = 13 := rfl
  have e3 : invalidCredentialsDetail.length = 10 := rfl
  simp only [tempLockDetail, String.length_append, e1, e2, e3] at h2
  omega

/-! ### Claim C4: unknown user vs wrong password -/

/-- C4: for every password input, a login with an unknown username and a
login with a wrong password for a known, unlocked user produce identical
external error responses (HTTP 401, detail `認証に失敗しました。`), so the
two runs are indistinguishable to the caller. -/
theorem unknown_user_and_wrong_password_indistinguishable
    (verify : String → String → Bool) (st : Store)
    (n1 n2 pw1 pw2 ip ua tok : String) (now : Nat) (u : UserRec)
    (h1 : findUser st.users n1 = none)
    (h2 : findUser st.users n2 = some u)
    (hp : u.permanent_lock = false)
    (hl : tempLockActive u now = false)
    (hv : verify pw2 u.password_hash = false) :
    (login verify st n1 pw1 ip ua now tok).1 = (login verify st n2 pw2 ip ua now tok).1 ∧
    (login verify st n1 pw1 ip ua now tok).1 = .err 401 invalidCredentialsDetail := by
  refine ⟨?_, by rw [login_unknown_user h1]⟩
  rw [login_unknown_user h1]
  by_cases hc : FAIL_LOCK_ATTEMPTS ≤ u.failed_login_attempts + 1
  · rw [login_wrong_password_now_locked h2 hp hl hv hc]
  · rw [login_wrong_password_below_threshold h2 hp hl hv (by omega)]

/-- C4 witness at a concrete store: unknown user `bob` versus wrong
password for existing, unlocked `alice`. -/
theorem unknown_user_and_wrong_password_indistinguishable_witness :
    (login (fun p h => p == h)
        ⟨[⟨1, "alice", "secret", none, false, true, 0, none, false⟩], [], [], []⟩
        "bob" "x" "ip" "ua" 100 "tok").1 =
      (login (fun p h => p == h)
        ⟨[⟨1, "alice", "secret", none, false, true, 0, none, false⟩], [], [], []⟩
        "alice" "wrong" "ip" "ua" 100 "tok").1 ∧
    (login (fun p h => p == h)
        ⟨[⟨1, "alice", "secret", none, false, true, 0, none, false⟩], [], [], []⟩
        "bob" "x" "ip" "ua" 100 "tok").1 = .err 401 invalidCredentialsDetail :=
  unknown_user_and_wrong_password_indistinguishable (fun p h => p == h)
    ⟨[⟨1, "alice", "secret", none, false, true, 0, none, false⟩], [], [], []⟩
    "bob" "alice" "x" "wrong" "ip" "ua" "tok" 100
    ⟨1, "alice", "secret", none, false, true, 0, none, false⟩
    (by decide) (by decide) (by decide) (by decide) (by decide)

/-! ### Claim C3: lock ETA exposed on login -/

/-- Modelled from the spec (section 4.2, step 2): the remaining lock time
the spec says is exposed, `ceil((locked_until - now) / 60s)`, as a natural
number of minutes. Stated only for comparison against the source's
`lockRemainingMinutes`. -/
def specCeilRemainingMinutes (lockedUntil now : Nat) : Nat :=
  ((lockedUntil - now) + 59) / 60

/-- C3 counterexample: with 90 seconds of lock remaining the code exposes
`int(90/60) = 1` minute (truncation), while ceil would give 2; the emitted
response embeds 1, not 2. -/
theorem lock_eta_not_ceil :
    (login (fun p h => p == h)
        ⟨[⟨1, "alice", "pw", none, false, true, 5, some 90, false⟩], [], [], []⟩
        "alice" "pw" "ip" "ua" 0 "tok").1 =
      .err 401 (tempLockDetail 1) ∧
    lockRemainingMinutes 90 0 = 1 ∧
    specCeilRemainingMinutes 90 0 = 2 ∧
    tempLockDetail 1 ≠ tempLockDetail 2 := by
  refine ⟨?_, rfl, rfl, by decide⟩
  rw [login_temporary_lock (u := ⟨1, "alice", "pw", none, false, true, 5, some 90, false⟩)
    (t := 90) (by decide) rfl rfl (by decide)]
  rfl

/-- C3 amended: for a user whose temporary lock is in effect the login
fails with `AccountLocked` (HTTP 401, the temporary-lock detail) exposing
`floor((locked_until - now) / 60s)` remaining minutes (Python `int()`
truncation), not the ceiling; for a permanently locked user the response
is the fixed permanent-lock detail, exposing no ETA. -/
theorem lock_eta_floor (verify : String → String → Bool) (st : Store)
    (username pw ip ua tok : String) (now t : Nat) (u : UserRec)
    (hu : findUser st.users username = some u) :
    (u.permanent_lock = false → u.locked_until = some t → now < t →
      (login verify st username pw ip ua now tok).1 =
        .err 401 (tempLockDetail ((t - now) / 60))) ∧
    (u.permanent_lock = true →
      (login verify st username pw ip ua now tok).1 = .err 401 permanentLockDetail) := by
  constructor
  · intro hp hl ht
    rw [login_temporary_lock hu hp hl ht]
    rfl
  · intro hp
    rw [login_permanent_lock hu hp]

/-- C3 witness: the amended statement applied at a concrete temporarily
locked user and at a concrete permanently locked user. -/
theorem lock_eta_floor_witness :
    ((login (fun p h => p == h)
        ⟨[⟨1, "alice", "pw", none, false, true, 5, some 90, false⟩], [], [], []⟩
        "alice" "pw" "ip" "ua" 0 "tok").1 = .err 401 (tempLockDetail ((90 - 0) / 60))) ∧
    ((login (fun p h => p == h)
        ⟨[⟨2, "carol", "pw", none, false, true, 0, none, true⟩], [], [], []⟩
        "carol" "pw" "ip" "ua" 0 "tok").1 = .err 401 permanentLockDetail) := by
  constructor
  · exact (lock_eta_floor (fun p h => p == h)
      ⟨[⟨1, "alice", "pw", none, false, true, 5, some 90, false⟩], [], [], []⟩
      "alice" "pw" "ip" "ua" "tok" 0 90
      ⟨1, "alice", "pw", none, false, true, 5, some 90, false⟩ (by decide)).1
      rfl rfl (by decide)
  · exact (lock_eta_floor (fun p h => p == h)
      ⟨[⟨2, "carol", "pw", none, false, true, 0, none, true⟩], [], [], []⟩
      "carol" "pw" "ip" "ua" "tok" 0 0
      ⟨2, "carol", "pw", none, false, true, 0, none, true⟩ (by decide)).2 rfl

/-! ### Claim C10: login ignores `is_active` -/

/-- C10 (code bug): `login` indeed never reads `is_active` — for the
deactivated user `dave` with the correct password the committed effects
(new active session row, counter reset with `last_login` stamped, success
history row) are present and, together with the response, are identical to
the run on the activated copy of the same user. But the claim's asserted
success response never occurs: the handler crashes at auth.py line 156
(`request.session` without `SessionMiddleware`), so the caller receives
the `AssertionError` HTTP 500, not the success body. -/
theorem login_is_active_unread_but_success_crashes :
    (login (fun p h => p == h)
        ⟨[⟨7, "dave", "pw-dave", none, false, false, 2, none, false⟩], [], [], []⟩
        "dave" "pw-dave" "ip" "ua" 50 "tok").1 =
      .assertionError sessionAssertDetail ∧
    (login (fun p h => p == h)
        ⟨[⟨7, "dave", "pw-dave", none, false, false, 2, none, false⟩], [], [], []⟩
        "dave" "pw-dave" "ip" "ua" 50 "tok").2.sessions =
      [⟨7, "tok", "ip", "ua", 50 + SESSION_EXPIRE_HOURS * 3600, true⟩] ∧
    (login (fun p h => p == h)
        ⟨[⟨7, "dave", "pw-dave", none, false, false, 2, none, false⟩], [], [], []⟩
        "dave" "pw-dave" "ip" "ua" 50 "tok").2.users =
      [⟨7, "dave", "pw-dave", some 50, false, false, 0, none, false⟩] ∧
    (login (fun p h => p == h)
        ⟨[⟨7, "dave", "pw-dave", none, false, false, 2, none, false⟩], [], [], []⟩
        "dave" "pw-dave" "ip" "ua" 50 "tok").2.history =
      [⟨some 7, "ip", "ua", true, none⟩] ∧
    (login (fun p h => p == h)
        ⟨[⟨7, "dave", "pw-dave", none, false, true, 2, none, false⟩], [], [], []⟩
        "dave" "pw-dave" "ip" "ua" 50 "tok").1 =
      (login (fun p h => p == h)
        ⟨[⟨7, "dave", "pw-dave", none, false, false, 2, none, false⟩], [], [], []⟩
        "dave" "pw-dave" "ip" "ua" 50 "tok").1 ∧
    (login (fun p h => p == h)
        ⟨[⟨7, "dave", "pw-dave", none, false, true, 2, none, false⟩], [], [], []⟩
        "dave" "pw-dave" "ip" "ua" 50 "tok").2.sessions =
      (login (fun p h => p == h)
        ⟨[⟨7, "dave", "pw-dave", none, false, false, 2, none, false⟩], [], [], []⟩
        "dave" "pw-dave" "ip" "ua" 50 "tok").2.sessions ∧
    (login (fun p h => p == h)
        ⟨[⟨7, "dave", "pw-dave", none, false, true, 2, none, false⟩], [], [], []⟩
        "dave" "pw-dave" "ip" "ua" 50 "tok").2.history =
      (login (fun p h => p == h)
        ⟨[⟨7, "dave", "pw-dave", none, false, false, 2, none, false⟩], [], [], []⟩
        "dave" "pw-dave" "ip" "ua" 50 "tok").2.history := by
  exact ⟨rfl, rfl, rfl, rfl, rfl, rfl, rfl⟩

/-- One wrong-password attempt below the threshold: the caller sees
`InvalidCredentials` and the stored user's counter advances by one with no
lock set. -/
theorem login_fail_progress {verify : String → String → Bool} {st : Store}
    {name wrong : String} (ip ua tok : String) (tN : Nat) {u : UserRec}
    (hu : findUser st.users name = some u)
    (hp : u.permanent_lock = false)
    (hl : u.locked_until = none)
    (hw : verify wrong u.password_hash = false)
    (hc : u.failed_login_attempts + 1 < FAIL_LOCK_ATTEMPTS) :
    (login verify st name wrong ip ua tN tok).1 = .err 401 invalidCredentialsDetail ∧
    findUser (login verify st name wrong ip ua tN tok).2.users name =
      some { u with failed_login_attempts := u.failed_login_attempts + 1 } := by
  rw [login_wrong_password_below_threshold hu hp (by simp [tempLockActive, hl]) hw hc]
  exact ⟨rfl, findUser_after_replace hu rfl⟩

/-- One wrong-password attempt crossing the threshold: the caller sees
`InvalidCredentials` and the stored user is now locked until
`now + lock duration`. -/
theorem login_fail_lock_progress {verify : String → String → Bool} {st : Store}
    {name wrong : String} (ip ua tok : String) (tN : Nat) {u : UserRec}
    (hu : findUser st.users name = some u)
    (hp : u.permanent_lock = false)
    (hl : u.locked_until = none)
    (hw : verify wrong u.password_hash = false)
    (hc : FAIL_LOCK_ATTEMPTS ≤ u.failed_login_attempts + 1) :
    (login verify st name wrong ip ua tN tok).1 = .err 401 invalidCredentialsDetail ∧
    findUser (login verify st name wrong ip ua tN tok).2.users name =
      some { u with failed_login_attempts := u.failed_login_attempts + 1,
                    locked_until := some (tN + FAIL_LOCK_DURATION_HOURS * 3600) } := by
  rw [login_wrong_password_now_locked hu hp (by simp [tempLockActive, hl]) hw hc]
  exact ⟨rfl, findUser_after_replace hu rfl⟩

/-! ### Claim C1: lockout after the configured number of failures -/

/-- C1: with the configured threshold 5, a fresh user who fails login four
times is still not locked (`is_locked` false, counter at 4); the fifth
consecutive failure sets `locked_until = now + 2h` so `is_locked` becomes
true; and a sixth attempt with the correct password inside the lock window
fails with the `AccountLocked` temporary-lock response, not the
`InvalidCredentials` one — the lock check precedes password
verification. -/
theorem lockout_after_threshold_failures
    (verify : String → String → Bool) (st : Store)
    (name wrong pw ip ua tok : String) (u : UserRec)
    (t1 t2 t3 t4 t5 t6 : Nat)
    (hu : findUser st.users name = some u)
    (hf : u.failed_login_attempts = 0)
    (hl : u.locked_until = none)
    (hp : u.permanent_lock = false)
    (hw : verify wrong u.password_hash = false)
    (_hc : verify pw u.password_hash = true)
    (ht : t6 < t5 + FAIL_LOCK_DURATION_HOURS * 3600) :
    FAIL_LOCK_ATTEMPTS = 5 ∧
    ∃ st1 st2 st3 st4 st5 u4 u5,
      login verify st name wrong ip ua t1 tok = (.err 401 invalidCredentialsDetail, st1) ∧
      login verify st1 name wrong ip ua t2 tok = (.err 401 invalidCredentialsDetail, st2) ∧
      login verify st2 name wrong ip ua t3 tok = (.err 401 invalidCredentialsDetail, st3) ∧
      login verify st3 name wrong ip ua t4 tok = (.err 401 invalidCredentialsDetail, st4) ∧
      findUser st4.users name = some u4 ∧
      u4.failed_login_attempts = FAIL_LOCK_ATTEMPTS - 1 ∧
      (∀ t, is_locked u4 t = false) ∧
      login verify st4 name wrong ip ua t5 tok = (.err 401 invalidCredentialsDetail, st5) ∧
      findUser st5.users name = some u5 ∧
      u5.failed_login_attempts = FAIL_LOCK_ATTEMPTS ∧
      u5.locked_until = some (t5 + FAIL_LOCK_DURATION_HOURS * 3600) ∧
      is_locked u5 t6 = true ∧
      (login verify st5 name pw ip ua t6 tok).1 =
        .err 401 (tempLockDetail
          (lockRemainingMinutes (t5 + FAIL_LOCK_DURATION_HOURS * 3600) t6)) ∧
      (login verify st5 name pw ip ua t6 tok).1 ≠ .err 401 invalidCredentialsDetail := by
  have s1 := login_fail_progress ip ua tok t1 hu hp hl hw
    (by show u.failed_login_attempts + 1 < 5; omega)
  have s2 := login_fail_progress ip ua tok t2 s1.2 hp hl hw
    (by show u.failed_login_attempts + 1 + 1 < 5; omega)
  have s3 := login_fail_progress ip ua tok t3 s2.2 hp hl hw
    (by show u.failed_login_attempts + 1 + 1 + 1 < 5; omega)
  have s4 := login_fail_progress ip ua tok t4 s3.2 hp hl hw
    (by show u.failed_login_attempts + 1 + 1 + 1 + 1 < 5; omega)
  have s5 := login_fail_lock_progress ip ua tok t5 s4.2 hp hl hw
    (by show 5 ≤ u.failed_login_attempts + 1 + 1 + 1 + 1 + 1; omega)
  refine ⟨rfl, _, _, _, _, _, _, _,
    by rw [← s1.1], by rw [← s2.1], by rw [← s3.1], by rw [← s4.1],
    s4.2, by show u.failed_login_attempts + 1 + 1 + 1 + 1 = 4; omega,
    ?_, by rw [← s5.1], s5.2,
    by show u.failed_login_attempts + 1 + 1 + 1 + 1 + 1 = 5; omega,
    rfl, ?_, ?_, ?_⟩
  · intro t
    simp [is_locked, tempLockActive, hp, hl]
  · simp [is_locked, tempLockActive, hp, ht]
  · rw [login_temporary_lock s5.2 hp rfl ht]
  · rw [login_temporary_lock s5.2 hp rfl ht]
    simp only [ne_eq, LoginResponse.err.injEq, not_and]
    intro _
    exact tempLockDetail_ne_invalid _

/-- C1 witness: the scenario run for the concrete user `alice` with
password `correct-horse`, five wrong attempts at times 0..40 and a correct
attempt at time 50, inside the two-hour window. -/
theorem lockout_after_threshold_failures_witness :
    FAIL_LOCK_ATTEMPTS = 5 ∧
    ∃ st1 st2 st3 st4 st5 u4 u5,
      login (fun p h => p == h)
        ⟨[⟨1, "alice", "correct-horse", none, false, true, 0, none, false⟩], [], [], []⟩
        "alice" "nope" "ip" "ua" 0 "tok" = (.err 401 invalidCredentialsDetail, st1) ∧
      login (fun p h => p == h) st1 "alice" "nope" "ip" "ua" 10 "tok" =
        (.err 401 invalidCredentialsDetail, st2) ∧
      login (fun p h => p == h) st2 "alice" "nope" "ip" "ua" 20 "tok" =
        (.err 401 invalidCredentialsDetail, st3) ∧
      login (fun p h => p == h) st3 "alice" "nope" "ip" "ua" 30 "tok" =
        (.err 401 invalidCredentialsDetail, st4) ∧
      findUser st4.users "alice" = some u4 ∧
      u4.failed_login_attempts = FAIL_LOCK_ATTEMPTS - 1 ∧
      (∀ t, is_locked u4 t = false) ∧
      login (fun p h => p == h) st4 "alice" "nope" "ip" "ua" 40 "tok" =
        (.err 401 invalidCredentialsDetail, st5) ∧
      findUser st5.users "alice" = some u5 ∧
      u5.failed_login_attempts = FAIL_LOCK_ATTEMPTS ∧
      u5.locked_until = some (40 + FAIL_LOCK_DURATION_HOURS * 3600) ∧
      is_locked u5 50 = true ∧
      (login (fun p h => p == h) st5 "alice" "correct-horse" "ip" "ua" 50 "tok").1 =
        .err 401 (tempLockDetail
          (lockRemainingMinutes (40 + FAIL_LOCK_DURATION_HOURS * 3600) 50)) ∧
      (login (fun p h => p == h) st5 "alice" "correct-horse" "ip" "ua" 50 "tok").1 ≠
        .err 401 invalidCredentialsDetail :=
  lockout_after_threshold_failures (fun p h => p == h)
    ⟨[⟨1, "alice", "correct-horse", none, false, true, 0, none, false⟩], [], [], []⟩
    "alice" "nope" "correct-horse" "ip" "ua" "tok"
    ⟨1, "alice", "correct-horse", none, false, true, 0, none, false⟩
    0 10 20 30 40 50
    (by decide) rfl rfl rfl (by decide) (by decide) (by decide)

/-! ### Claim C8: generated passwords -/

/-- C8: every password returned by `generate_password` with requested
length 64 has exactly 64 characters, uses only the restricted alphabet,
and contains at least one lowercase (excl. l), one uppercase (excl. I, O)
and one digit (excl. 0, 1). -/
theorem generate_password_spec (choice : Nat → Nat) (fuel : Nat) (p : List Char)
    (h : generate_password choice fuel 64 = some p) :
    p.length = 64 ∧ (∀ c ∈ p, c ∈ alphabet) ∧
    (∃ c ∈ p, c ∈ lowercase) ∧ (∃ c ∈ p, c ∈ uppercase) ∧ (∃ c ∈ p, c ∈ digits) := by
  have main : ∀ fuel attempt p, generatePasswordLoop choice 64 fuel attempt = some p →
      p.length = 64 ∧ (∀ c ∈ p, c ∈ alphabet) ∧
      (∃ c ∈ p, c ∈ lowercase) ∧ (∃ c ∈ p, c ∈ uppercase) ∧ (∃ c ∈ p, c ∈ digits) := by
    intro fuel
    induction fuel with
    | zero => intro attempt p h; simp [generatePasswordLoop] at h
    | succ n ih =>
      intro attempt p h
      simp only [generatePasswordLoop] at h
      by_cases hok : passwordOk (mkCandidate choice (attempt * 64) 64) = true
      · rw [if_pos hok] at h
        obtain rfl : mkCandidate choice (attempt * 64) 64 = p := by
          simpa using h
        refine ⟨by simp [mkCandidate], ?_, ?_⟩
        · intro c hc
          simp only [mkCandidate, List.mem_map] at hc
          obtain ⟨i, _, rfl⟩ := hc
          exact mem_alphabet_getD _ (Nat.mod_lt _ alphabet_length_pos)
        · have hok' := hok
          simp only [passwordOk, Bool.and_eq_true, List.any_eq_true] at hok'
          obtain ⟨⟨⟨c1, hc1, hm1⟩, ⟨c2, hc2, hm2⟩⟩, ⟨c3, hc3, hm3⟩⟩ := hok'
          refine ⟨⟨c1, hc1, ?_⟩, ⟨⟨c2, hc2, ?_⟩, ⟨c3, hc3, ?_⟩⟩⟩
          · simpa using hm1
          · simpa using hm2
          · simpa using hm3
      · rw [if_neg hok] at h
        exact ih (attempt + 1) p h
  exact main fuel 0 p h

/-- C8 witness: with the identity index stream and fuel 1 the generated
password exists and satisfies the property. -/
theorem generate_password_spec_witness :
    ∃ p, generate_password (fun n => n) 1 64 = some p ∧
      (p.length = 64 ∧ (∀ c ∈ p, c ∈ alphabet) ∧
       (∃ c ∈ p, c ∈ lowercase) ∧ (∃ c ∈ p, c ∈ uppercase) ∧ (∃ c ∈ p, c ∈ digits)) := by
  refine ⟨mkCandidate (fun n => n) 0 64, ?_, ?_⟩
  · decide
  · exact generate_password_spec (fun n => n) 1 (mkCandidate (fun n => n) 0 64) (by decide)

/-! ### Claim C6: session validity -/

/-- C6: session resolution treats a session as valid iff a row with the
token exists that is active and unexpired (`expires_at > now`); in
particular, when every session with the token is expired — even if still
flagged active — both protected routes answer 401 Unauthenticated. -/
theorem session_valid_iff (st : Store) (token : String) (now : Nat) :
    ((sessionQuery st.sessions token now).isSome = true ↔
      ∃ s ∈ st.sessions, s.token_hash = token ∧ s.is_active = true ∧ now < s.expires_at) ∧
    ((∀ s ∈ st.sessions, s.token_hash = token → s.expires_at ≤ now) →
      get_user_profile st (some token) now =
        .err 401 "セッションが無効または期限切れです。" ∧
      get_admin_user st (some token) now =
        .err 401 "セッションが無効または期限切れです。") := by
  constructor
  · rw [sessionQuery, List.find?_isSome]
    constructor
    · rintro ⟨s, hs, hp⟩
      simp only [Bool.and_eq_true, beq_iff_eq, decide_eq_true_eq] at hp
      exact ⟨s, hs, hp.1.1, hp.1.2, hp.2⟩
    · rintro ⟨s, hs, h1, h2, h3⟩
      exact ⟨s, hs, by simp [h1, h2, h3]⟩
  · intro hall
    have hnone : sessionQuery st.sessions token now = none := by
      rw [sessionQuery, List.find?_eq_none]
      intro s hs hmem
      simp only [Bool.and_eq_true, beq_iff_eq, decide_eq_true_eq] at hmem
      have hle := hall s hs hmem.1.1
      omega
    constructor
    · simp [get_user_profile, hnone]
    · simp [get_admin_user, hnone]

/-- C6 witness: a session whose `expires_at` is in the past but whose
`is_active` flag is still true is invalid, and the profile and admin
routes reject it with 401. -/
theorem session_valid_iff_witness :
    ((sessionQuery [⟨1, "tkn", "ip", "ua", 100, true⟩] "tkn" 100).isSome = true ↔
      ∃ s ∈ [(⟨1, "tkn", "ip", "ua", 100, true⟩ : SessionRec)],
        s.token_hash = "tkn" ∧ s.is_active = true ∧ 100 < s.expires_at) ∧
    (get_user_profile
        ⟨[⟨1, "u", "ph", none, true, true, 0, none, false⟩],
         [⟨1, "tkn", "ip", "ua", 100, true⟩], [], []⟩ (some "tkn") 100 =
      .err 401 "セッションが無効または期限切れです。") ∧
    (get_admin_user
        ⟨[⟨1, "u", "ph", none, true, true, 0, none, false⟩],
         [⟨1, "tkn", "ip", "ua", 100, true⟩], [], []⟩ (some "tkn") 100 =
      .err 401 "セッションが無効または期限切れです。") := by
  have h := session_valid_iff
    ⟨[⟨1, "u", "ph", none, true, true, 0, none, false⟩],
     [⟨1, "tkn", "ip", "ua", 100, true⟩], [], []⟩ "tkn" 100
  have h2 := h.2 (by decide)
  exact ⟨h.1, h2.1, h2.2⟩

/-! ### Claim C7: logout -/

/-- C7 (code bug): the state half of the claim holds — the first logout
with a valid token deactivates that session row, a second logout with the
same token changes nothing, and a logout with an unknown token leaves the
store untouched — but the claimed silent success never occurs: auth.py
line 199 evaluates `"user" in request.session` on every call and, with no
`SessionMiddleware` installed (main.py), every logout raises
`AssertionError` and answers HTTP 500, never the success body. -/
theorem logout_crashes_despite_idempotent_state :
    (logout ⟨[], [⟨1, "tkn", "ip", "ua", 100, true⟩], [], []⟩ (some "tkn")).1 =
      .assertionError sessionAssertDetail ∧
    (logout ⟨[], [⟨1, "tkn", "ip", "ua", 100, true⟩], [], []⟩ (some "tkn")).2 =
      ⟨[], [⟨1, "tkn", "ip", "ua", 100, false⟩], [], []⟩ ∧
    logout (logout ⟨[], [⟨1, "tkn", "ip", "ua", 100, true⟩], [], []⟩ (some "tkn")).2
        (some "tkn") =
      logout ⟨[], [⟨1, "tkn", "ip", "ua", 100, true⟩], [], []⟩ (some "tkn") ∧
    logout ⟨[], [⟨1, "tkn", "ip", "ua", 100, true⟩], [], []⟩ (some "zzz") =
      (.assertionError sessionAssertDetail,
       ⟨[], [⟨1, "tkn", "ip", "ua", 100, true⟩], [], []⟩) ∧
    logout ⟨[], [⟨1, "tkn", "ip", "ua", 100, true⟩], [], []⟩ none =
      (.assertionError sessionAssertDetail,
       ⟨[], [⟨1, "tkn", "ip", "ua", 100, true⟩], [], []⟩) := by
  exact ⟨rfl, rfl, rfl, rfl, rfl⟩

/-! ### Claim C5: reset-request resolution lifecycle -/

theorem urr_not_found (st : Store) (rid : Nat) (admin : UserRec) (d : String) (now : Nat)
    (hnone : st.resetRequests.find? (fun r => r.id == rid) = none) :
    update_reset_request st rid admin d now =
      (.err 404 "リセットリクエストが見つかりません。", st) := by
  simp [update_reset_request, hnone]

theorem urr_already_resolved (st : Store) (rid : Nat) (admin : UserRec) (d : String)
    (now : Nat) (req : ResetRequestRec)
    (hfind : st.resetRequests.find? (fun r => r.id == rid) = some req)
    (hst : req.status ≠ "pending") :
    update_reset_request st rid admin d now =
      (.err 400 "このリクエストはすでに処理されています。", st) := by
  have hbne : (req.status != "pending") = true := by simpa using hst
  simp [update_reset_request, hfind, hbne]

theorem urr_approved_user_found (st : Store) (rid : Nat) (admin : UserRec) (now : Nat)
    (req : ResetRequestRec) (tu : UserRec)
    (hfind : st.resetRequests.find? (fun r => r.id == rid) = some req)
    (hst : req.status = "pending")
    (htu : st.users.find? (fun v => v.id == req.user_id) = some tu) :
    update_reset_request st rid admin "approved" now =
      (.ok "リセットリクエストが更新されました。",
       ⟨replaceFirst (fun v => v.id == req.user_id)
          ({ tu with failed_login_attempts := 0, locked_until := none }) st.users,
        st.sessions, st.history,
        replaceFirst (fun r => r.id == rid)
          ({ req with status := "approved", resolved_by := some admin.id,
                      resolved_at := some now }) st.resetRequests⟩) := by
  have hbne : (req.status != "pending") = false := by simp [hst]
  simp [update_reset_request, hfind, hbne, htu]

theorem urr_approved_user_absent (st : Store) (rid : Nat) (admin : UserRec) (now : Nat)
    (req : ResetRequestRec)
    (hfind : st.resetRequests.find? (fun r => r.id == rid) = some req)
    (hst : req.status = "pending")
    (htu : st.users.find? (fun v => v.id == req.user_id) = none) :
    update_reset_request st rid admin "approved" now =
      (.ok "リセットリクエストが更新されました。",
       ⟨st.users, st.sessions, st.history,
        replaceFirst (fun r => r.id == rid)
          ({ req with status := "approved", resolved_by := some admin.id,
                      resolved_at := some now }) st.resetRequests⟩) := by
  have hbne : (req.status != "pending") = false := by simp [hst]
  simp [update_reset_request, hfind, hbne, htu]

theorem urr_not_approved (st : Store) (rid : Nat) (admin : UserRec) (d : String)
    (now : Nat) (req : ResetRequestRec)
    (hfind : st.resetRequests.find? (fun r => r.id == rid) = some req)
    (hst : req.status = "pending")
    (hd : (d == "approved") = false) :
    update_reset_request st rid admin d now =
      (.ok "リセットリクエストが更新されました。",
       ⟨st.users, st.sessions, st.history,
        replaceFirst (fun r => r.id == rid)
          ({ req with status := d, resolved_by := some admin.id,
                      resolved_at := some now }) st.resetRequests⟩) := by
  have hbne : (req.status != "pending") = false := by simp [hst]
  simp [update_reset_request, hfind, hbne, hd]

/-- C5: resolving a reset request fails with `NotFound` when no row has
the id; on a pending request the first resolution succeeds, stamping the
decision, `resolved_by = admin.id` and `resolved_at = now`; a second
resolution of the same request fails with `AlreadyResolved` and changes
nothing; an approved decision clears the target user's
`failed_login_attempts` and `locked_until` while leaving `permanent_lock`
unchanged; a rejected decision leaves users untouched. -/
theorem reset_request_resolution (st : Store) (rid : Nat) (admin admin2 : UserRec)
    (d d2 : String) (now now2 : Nat) :
    (st.resetRequests.find? (fun r => r.id == rid) = none →
      update_reset_request st rid admin d now =
        (.err 404 "リセットリクエストが見つかりません。", st)) ∧
    (∀ req, st.resetRequests.find? (fun r => r.id == rid) = some req →
      req.status ≠ "pending" →
      update_reset_request st rid admin d now =
        (.err 400 "このリクエストはすでに処理されています。", st)) ∧
    (∀ req, st.resetRequests.find? (fun r => r.id == rid) = some req →
      req.status = "pending" → (d = "approved" ∨ d = "rejected") →
      (update_reset_request st rid admin d now).1 =
        .ok "リセットリクエストが更新されました。" ∧
      ((update_reset_request st rid admin d now).2.resetRequests.find?
          (fun r => r.id == rid) =
        some { req with status := d, resolved_by := some admin.id,
                        resolved_at := some now }) ∧
      update_reset_request (update_reset_request st rid admin d now).2 rid admin2 d2 now2 =
        (.err 400 "このリクエストはすでに処理されています。",
         (update_reset_request st rid admin d now).2) ∧
      (d = "approved" → ∀ tu, st.users.find? (fun v => v.id == req.user_id) = some tu →
        (update_reset_request st rid admin d now).2.users.find?
            (fun v => v.id == req.user_id) =
          some { tu with failed_login_attempts := 0, locked_until := none } ∧
        ({ tu with failed_login_attempts := 0, locked_until := none } : UserRec).permanent_lock
          = tu.permanent_lock) ∧
      (d = "rejected" → (update_reset_request st rid admin d now).2.users = st.users)) := by
  refine ⟨?_, ?_, ?_⟩
  · intro hnone
    exact urr_not_found st rid admin d now hnone
  · intro req hfind hst
    exact urr_already_resolved st rid admin d now req hfind hst
  · intro req hfind hst hd
    have hpreq : ((fun r => r.id == rid)
        ({ req with status := d, resolved_by := some admin.id,
                    resolved_at := some now } : ResetRequestRec)) = true := by
      have := List.find?_some hfind
      simpa using this
    have hfind2 := find?_some_of_replaceFirst hfind hpreq
    rcases hd with rfl | rfl
    · rcases hfu : st.users.find? (fun v => v.id == req.user_id) with _ | tu
      · have hmain := urr_approved_user_absent st rid admin now req hfind hst hfu
        refine ⟨by rw [hmain], ?_, ?_, ?_, ?_⟩
        · rw [hmain]
          exact hfind2
        · rw [hmain]
          exact urr_already_resolved _ rid admin2 d2 now2 _ hfind2
            (by show ("approved" : String) ≠ "pending"; decide)
        · intro _ tu htu
          rw [hfu] at htu
          simp at htu
        · intro habs
          simp at habs
      · have hmain := urr_approved_user_found st rid admin now req tu hfind hst hfu
        have hptu : ((fun v => v.id == req.user_id)
            ({ tu with failed_login_attempts := 0, locked_until := none } : UserRec)) =
            true := by
          have := List.find?_some hfu
          simpa using this
        refine ⟨by rw [hmain], ?_, ?_, ?_, ?_⟩
        · rw [hmain]
          exact hfind2
        · rw [hmain]
          exact urr_already_resolved _ rid admin2 d2 now2 _ hfind2
            (by show ("approved" : String) ≠ "pending"; decide)
        · intro _ tu2 htu2
          rw [hfu] at htu2
          obtain rfl := Option.some.inj htu2
          refine ⟨?_, rfl⟩
          rw [hmain]
          exact find?_some_of_replaceFirst hfu hptu
        · intro habs
          simp at habs
    · have hmain := urr_not_approved st rid admin "rejected" now req hfind hst (by decide)
      refine ⟨by rw [hmain], ?_, ?_, ?_, ?_⟩
      · rw [hmain]
        exact hfind2
      · rw [hmain]
        exact urr_already_resolved _ rid admin2 d2 now2 _ hfind2
          (by show ("rejected" : String) ≠ "pending"; decide)
      · intro habs
        simp at habs
      · intro _
        rw [hmain]

/-- C5 witness: a concrete pending request approved for a temporarily
locked user, then re-approved (failing), plus `NotFound` on a missing
id. -/
theorem reset_request_resolution_witness :
    (update_reset_request
        ⟨[⟨3, "carol", "ph", none, false, true, 5, some 999, false⟩], [], [],
         [⟨10, 3, "help", "pending", none, none⟩]⟩
        77 ⟨1, "root", "ph", none, true, true, 0, none, false⟩ "approved" 50 =
      (.err 404 "リセットリクエストが見つかりません。",
       ⟨[⟨3, "carol", "ph", none, false, true, 5, some 999, false⟩], [], [],
        [⟨10, 3, "help", "pending", none, none⟩]⟩)) ∧
    ((update_reset_request
        ⟨[⟨3, "carol", "ph", none, false, true, 5, some 999, false⟩], [], [],
         [⟨10, 3, "help", "pending", none, none⟩]⟩
        10 ⟨1, "root", "ph", none, true, true, 0, none, false⟩ "approved" 50).1 =
      .ok "リセットリクエストが更新されました。") ∧
    ((update_reset_request
        ⟨[⟨3, "carol", "ph", none, false, true, 5, some 999, false⟩], [], [],
         [⟨10, 3, "help", "pending", none, none⟩]⟩
        10 ⟨1, "root", "ph", none, true, true, 0, none, false⟩ "approved" 50).2.resetRequests.find?
        (fun r => r.id == 10) =
      some ⟨10, 3, "help", "approved", some 1, some 50⟩) ∧
    (update_reset_request
        (update_reset_request
          ⟨[⟨3, "carol", "ph", none, false, true, 5, some 999, false⟩], [], [],
           [⟨10, 3, "help", "pending", none, none⟩]⟩
          10 ⟨1, "root", "ph", none, true, true, 0, none, false⟩ "approved" 50).2
        10 ⟨1, "root", "ph", none, true, true, 0, none, false⟩ "approved" 60 =
      (.err 400 "このリクエストはすでに処理されています。",
       (update_reset_request
          ⟨[⟨3, "carol", "ph", none, false, true, 5, some 999, false⟩], [], [],
           [⟨10, 3, "help", "pending", none, none⟩]⟩
          10 ⟨1, "root", "ph", none, true, true, 0, none, false⟩ "approved" 50).2)) ∧
    ((update_reset_request
        ⟨[⟨3, "carol", "ph", none, false, true, 5, some 999, false⟩], [], [],
         [⟨10, 3, "help", "pending", none, none⟩]⟩
        10 ⟨1, "root", "ph", none, true, true, 0, none, false⟩ "approved" 50).2.users.find?
        (fun v => v.id == 3) =
      some ⟨3, "carol", "ph", none, false, true, 0, none, false⟩) := by
  have h := reset_request_resolution
    ⟨[⟨3, "carol", "ph", none, false, true, 5, some 999, false⟩], [], [],
     [⟨10, 3, "help", "pending", none, none⟩]⟩
    10 ⟨1, "root", "ph", none, true, true, 0, none, false⟩
    ⟨1, "root", "ph", none, true, true, 0, none, false⟩ "approved" "approved" 50 60
  have hnf := reset_request_resolution
    ⟨[⟨3, "carol", "ph", none, false, true, 5, some 999, false⟩], [], [],
     [⟨10, 3, "help", "pending", none, none⟩]⟩
    77 ⟨1, "root", "ph", none, true, true, 0, none, false⟩
    ⟨1, "root", "ph", none, true, true, 0, none, false⟩ "approved" "approved" 50 60
  have hmain := h.2.2 ⟨10, 3, "help", "pending", none, none⟩ (by decide) rfl (Or.inl rfl)
  have happr := hmain.2.2.2.1 rfl ⟨3, "carol", "ph", none, false, true, 5, some 999, false⟩
    (by decide)
  exact ⟨hnf.1 (by decide), hmain.1, hmain.2.1, hmain.2.2.1, happr.1⟩

/-! ### Claim C9: unauthenticated registration honours `is_admin` -/

/-- C9: `register_user` has no session dependency and stores the
caller-supplied `is_admin` flag verbatim: for every payload with a fresh
username the created user's `is_admin` equals the payload's, so an
unauthenticated caller can create an administrator account. -/
theorem register_stores_is_admin_verbatim (hash : String → String) (st : Store)
    (payload : UserCreate) (newId : Nat)
    (hfresh : findUser st.users payload.username = none) :
    ∃ u, register_user hash st payload newId =
        (.ok u, { st with users := st.users ++ [u] }) ∧
      u.is_admin = payload.is_admin ∧ u.username = payload.username := by
  refine ⟨⟨newId, payload.username, hash payload.password, none, payload.is_admin,
    true, 0, none, false⟩, ?_, rfl, rfl⟩
  simp [register_user, hfresh]

/-- C9 witness: an (unauthenticated) registration payload with
`is_admin = true` yields an administrator account. -/
theorem register_stores_is_admin_verbatim_witness :
    ∃ u, register_user (fun p => p) ⟨[], [], [], []⟩ ⟨"mallory", "pw", true⟩ 1 =
        (.ok u, { (⟨[], [], [], []⟩ : Store) with users := [] ++ [u] }) ∧
      u.is_admin = true ∧ u.username = "mallory" :=
  register_stores_is_admin_verbatim (fun p => p) ⟨[], [], [], []⟩
    ⟨"mallory", "pw", true⟩ 1 rfl

/-! ### Claim C2: reset-request submission -/

/-- C2 (code bug): submission for a nonexistent username returns the
success body with the store untouched, but submission for an existing
username raises `NameError` (auth.py does not import `ResetRequest`) and
inserts nothing — contradicting the spec, which promises the same success
response in both cases plus a pending row for an existing user. -/
theorem reset_request_submission_name_error :
    request_password_reset
        ⟨[⟨1, "alice", "ph", none, false, true, 0, none, false⟩], [], [], []⟩
        "nobody" "please unlock" =
      (.ok "リセットリクエストが送信されました。管理者による確認をお待ちください。",
       ⟨[⟨1, "alice", "ph", none, false, true, 0, none, false⟩], [], [], []⟩) ∧
    request_password_reset
        ⟨[⟨1, "alice", "ph", none, false, true, 0, none, false⟩], [], [], []⟩
        "alice" "please unlock" =
      (.nameError "ResetRequest",
       ⟨[⟨1, "alice", "ph", none, false, true, 0, none, false⟩], [], [], []⟩) := by
  constructor
  · rfl
  · rfl

end OpenLockey
